import Mathlib

/-!
Shallow embedding of `src/app.py` from maramchebbi/survival_analysis.

The application loads four artifacts (model, scaler, metadata, metrics),
renders one input control per feature in `metadata['feature_cols']`,
assembles a feature vector, scales it, scores it with the model, and maps
the scalar score to a risk tier and a premium.  Numbers are modelled by ℚ;
the scaler and the model are opaque pure functions.
-/

namespace SurvivalApp

/-- The three risk tiers of the app: 'Faible', 'Moyen', 'Élevé'. -/
inductive RiskTier
  | low
  | medium
  | high
  deriving DecidableEq, Repr

/-- `risk_category` (app.py lines 159-173):
`if risk_score < -0.5: 'Faible' elif risk_score < 0.5: 'Moyen' else: 'Élevé'`. -/
def risk_category (risk_score : ℚ) : RiskTier :=
  if risk_score < -(1/2) then RiskTier.low
  else if risk_score < 1/2 then RiskTier.medium
  else RiskTier.high

/-- `base_premium = 1000` (app.py line 191). -/
def base_premium : ℚ := 1000

/-- `premium_multiplier` selected by tier (app.py lines 192-197). -/
def premium_multiplier : RiskTier → ℚ
  | RiskTier.low => 8/10
  | RiskTier.medium => 1
  | RiskTier.high => 3/2

/-- `estimated_premium = base_premium * premium_multiplier` (app.py line 199). -/
def estimated_premium (t : RiskTier) : ℚ :=
  base_premium * premium_multiplier t

/-- An InputVector: the `inputs` dict, a finite map from feature name to
numeric value, modelled as an association list with distinct keys. -/
def InputVector : Type := List (String × ℚ)

/-- `inputs.get(feat, 0)`: lookup with default 0 (app.py line 151). -/
def getDefault (inputs : InputVector) (feat : String) : ℚ :=
  (List.lookup feat inputs).getD 0

/-- `features_list = [inputs.get(feat, 0) for feat in metadata['feature_cols']]`
(app.py line 151). -/
def features_list (inputs : InputVector) (feature_cols : List String) : List ℚ :=
  feature_cols.map (fun feat => getDefault inputs feat)

/-- The RiskResult displayed by the app: raw score, tier, premium. -/
structure RiskResult where
  score : ℚ
  tier : RiskTier
  premium : ℚ
  deriving DecidableEq, Repr

/-- The risk-evaluation block (app.py lines 149-203): assemble the vector in
metadata order, apply `scaler.transform`, apply `model.predict` to get the
scalar score, classify it and price it.  The scaler and model are the opaque
loaded artifacts, treated as pure functions. -/
def evaluate (scaler : List ℚ → List ℚ) (model : List ℚ → ℚ)
    (inputs : InputVector) (feature_cols : List String) : RiskResult :=
  let fl := features_list inputs feature_cols
  let features_scaled := scaler fl
  let risk_score := model features_scaled
  { score := risk_score
    tier := risk_category risk_score
    premium := estimated_premium (risk_category risk_score) }

/-- The loaded inference model artifact: a pure scoring function. -/
def Model : Type := List ℚ → ℚ

/-- The loaded scaler artifact: a pure transform. -/
def Scaler : Type := List ℚ → List ℚ

/-- The metadata artifact: exposes `feature_cols` (app.py line 87). -/
structure Metadata where
  feature_cols : List String

/-- The metrics artifact (app.py lines 75-81). -/
structure Metrics where
  test_c_index : ℚ
  train_c_index : ℚ
  n_features : ℕ
  dataset_size : ℕ

/-- `load_models` (app.py lines 15-24) wrapped in the try/except of lines
26-30: the four artifact reads happen in sequence, each may fail, and a
single exception aborts the whole load, so the result is all four
artifacts or nothing. -/
def load_models (m : Option Model) (s : Option Scaler)
    (d : Option Metadata) (r : Option Metrics) :
    Option (Model × Scaler × Metadata × Metrics) := do
  let model ← m
  let scaler ← s
  let metadata ← d
  let metrics ← r
  return (model, scaler, metadata, metrics)

/-- `models_loaded` (app.py lines 26-30). -/
def models_loaded (loaded : Option (Model × Scaler × Metadata × Metrics)) :
    Bool :=
  loaded.isSome

/-- `feature_labels` (app.py lines 89-99). -/
def feature_labels (f : String) : Option String :=
  if f = "fin" then some "💰 Situation Financière (0=Mauvaise, 1=Bonne)"
  else if f = "age" then some "🎂 Âge (en années)"
  else if f = "race" then some "👤 Origine (0=Autre, 1=Noir)"
  else if f = "wexp" then some "💼 Expérience Professionnelle (0=Non, 1=Oui)"
  else if f = "mar" then some "💍 Situation Maritale (0=Célibataire, 1=Marié)"
  else if f = "paro" then some "👮 Libération Conditionnelle (0=Non, 1=Oui)"
  else if f = "prio" then some "📋 Nombre d\x27Arrestations Antérieures"
  else if f = "week" then some "📅 Semaines depuis la Libération"
  else if f = "arrest" then some "🚨 Événement (0=Non, 1=Oui)"
  else none

/-- `feature_descriptions` (app.py lines 101-109). -/
def feature_descriptions (f : String) : Option String :=
  if f = "fin" then some "Stabilité financière de l\x27assuré"
  else if f = "age" then some "Âge de l\x27assuré en années"
  else if f = "race" then some "Catégorie démographique"
  else if f = "wexp" then some "A une expérience de travail à temps plein"
  else if f = "mar" then some "Statut marital"
  else if f = "paro" then some "Libéré en conditionnelle"
  else if f = "prio" then some "Nombre de condamnations antérieures"
  else none

/-- `feature_ranges` (app.py lines 111-119); all table entries are
non-negative integer pairs with min ≤ max. -/
def feature_ranges (f : String) : Option (ℕ × ℕ) :=
  if f = "fin" then some (0, 1)
  else if f = "age" then some (18, 100)
  else if f = "race" then some (0, 1)
  else if f = "wexp" then some (0, 1)
  else if f = "mar" then some (0, 1)
  else if f = "paro" then some (0, 1)
  else if f = "prio" then some (0, 20)
  else none

/-- Python's single-character `str.replace`, used as
`feature.replace('_', ' ')` on app.py line 127. -/
def replaceChar (s : String) (a b : Char) : String :=
  String.mk (s.toList.map (fun c => if c = a then b else c))

/-- Helper for `pyTitle`: the boolean records whether the previous
character was alphabetic. -/
def titleAux : List Char → Bool → List Char
  | [], _ => []
  | c :: cs, prevAlpha =>
    if c.isAlpha then
      (if prevAlpha then c.toLower else c.toUpper) :: titleAux cs true
    else
      c :: titleAux cs false

/-- Python's `str.title()` (app.py line 127): an alphabetic character is
uppercased when the previous character is not alphabetic and lowercased
otherwise. -/
def pyTitle (s : String) : String :=
  String.mk (titleAux s.toList false)

/-- A rendered input control: `st.selectbox` or `st.number_input`
(app.py lines 131-148). -/
inductive Control
  | selectbox (label : String) (options : List ℚ) (index : ℕ) (help : String)
  | numberInput (label : String) (min_value max_value value step : ℚ)
      (help : String)
  deriving DecidableEq, Repr

/-- The label shown on a control. -/
def Control.label : Control → String
  | Control.selectbox lab _ _ _ => lab
  | Control.numberInput lab _ _ _ _ _ => lab

/-- One rendered input control for a feature (app.py lines 127-148):
label, description and range come from the static tables with fallback
defaults; a declared `max == 1` gives a selectbox over [0, 1] with index
0, any other range a bounded number input whose default is the integer
midpoint `min + (max - min) // 2` and whose step is 1 for age and prio
and 0.1 otherwise. -/
def renderControl (feature : String) : Control :=
  let label := (feature_labels feature).getD
    (pyTitle (replaceChar feature '_' ' '))
  let description := (feature_descriptions feature).getD
    ("Valeur pour " ++ feature)
  let range := (feature_ranges feature).getD (0, 100)
  let min_val := range.1
  let max_val := range.2
  if max_val = 1 then
    Control.selectbox label [0, 1] 0 description
  else
    Control.numberInput label (min_val : ℚ) (max_val : ℚ)
      ((min_val + (max_val - min_val) / 2 : ℕ) : ℚ)
      (if feature ∈ ["age", "prio"] then 1 else 1/10)
      description

/-- `n_cols = 3` (app.py line 121). -/
def n_cols : ℕ := 3

/-- The rendered form (app.py lines 121-148): for `idx, feature` in
`enumerate(feature_cols)`, one control placed in column `idx % n_cols`. -/
def renderForm (feature_cols : List String) : List (ℕ × Control) :=
  feature_cols.enum.map (fun p => (p.1 % n_cols, renderControl p.2))

/-- The page shown to the user: either the single load-error state
(app.py lines 70-72: `st.error` then `st.stop()`), or the main page with
the input form. -/
inductive Page
  | errorPage
  | mainPage (form : List (ℕ × Control))
  deriving DecidableEq, Repr

/-- Whether a page contains an input form. -/
def Page.hasForm : Page → Bool
  | Page.errorPage => false
  | Page.mainPage _ => true

/-- Top-level rendering flow (app.py lines 26-30, 70-72, 121-148): when
`models_loaded` is false the page is the error state and `st.stop()`
renders nothing further; otherwise the form is built from metadata's
`feature_cols`. -/
def renderApp (loaded : Option (Model × Scaler × Metadata × Metrics)) :
    Page :=
  match loaded with
  | none => Page.errorPage
  | some (_, _, d, _) => Page.mainPage (renderForm d.feature_cols)

/-- The values a rendered control can hold: a selectbox holds one of its
options, and a bounded number input holds a value clamped to
[min_value, max_value] by the widget. -/
def Control.reachable : Control → ℚ → Prop
  | Control.selectbox _ options _ _, v => v ∈ options
  | Control.numberInput _ mn mx _ _ _, v => mn ≤ v ∧ v ≤ mx

instance instDecidableReachable :
    (c : Control) → (v : ℚ) → Decidable (c.reachable v)
  | Control.selectbox _ o _ _, v => inferInstanceAs (Decidable (v ∈ o))
  | Control.numberInput _ mn mx _ _ _, v =>
      inferInstanceAs (Decidable (mn ≤ v ∧ v ≤ mx))

/-- C1: every score gets exactly one tier, with half-open boundaries:
`s < -0.5` is Low, `-0.5 ≤ s < 0.5` is Medium, `s ≥ 0.5` is High; in
particular `-0.5` is Medium, not Low, and `0.5` is High, not Medium. -/
theorem risk_category_tiers (s : ℚ) :
    (risk_category s = RiskTier.low ↔ s < -(1/2)) ∧
    (risk_category s = RiskTier.medium ↔ -(1/2) ≤ s ∧ s < 1/2) ∧
    (risk_category s = RiskTier.high ↔ 1/2 ≤ s) ∧
    risk_category (-(1/2)) = RiskTier.medium ∧
    risk_category (1/2) = RiskTier.high := by
  refine ⟨?_, ?_, ?_, by norm_num [risk_category], by norm_num [risk_category]⟩
  all_goals unfold risk_category
  all_goals split_ifs <;> simp_all <;> linarith

/-- C2: the premium is 1000 times the tier's fixed multiplier
(0.8 / 1.0 / 1.5), hence 800, 1000, 1500 dollars per tier; the base
premium and multipliers are constants of the program. -/
theorem estimated_premium_by_tier :
    base_premium = 1000 ∧
    premium_multiplier RiskTier.low = 8/10 ∧
    premium_multiplier RiskTier.medium = 1 ∧
    premium_multiplier RiskTier.high = 3/2 ∧
    estimated_premium RiskTier.low = 800 ∧
    estimated_premium RiskTier.medium = 1000 ∧
    estimated_premium RiskTier.high = 1500 := by
  norm_num [estimated_premium, base_premium, premium_multiplier]

/-- Lookup in an association list with distinct keys is invariant under
permutation of the list. -/
theorem lookup_eq_of_perm {l l' : List (String × ℚ)} (hp : l.Perm l') (k : String)
    (hnd : (l.map Prod.fst).Nodup) :
    List.lookup k l = List.lookup k l' := by
  induction hp with
  | nil => rfl
  | cons a p ih =>
      rw [List.map_cons, List.nodup_cons] at hnd
      simp only [List.lookup]
      cases k == a.1
      · exact ih hnd.2
      · rfl
  | swap a b t =>
      rw [List.map_cons, List.map_cons, List.nodup_cons, List.nodup_cons] at hnd
      have hne : ¬ (b.1 = a.1) := by
        intro h
        exact hnd.1 (by simp [h])
      simp only [List.lookup]
      cases hb : k == b.1 <;> cases ha : k == a.1 <;> simp_all
  | trans p q ih1 ih2 =>
      have hnd2 := ((p.map Prod.fst).nodup_iff).mp hnd
      exact (ih1 hnd).trans (ih2 hnd2)

/-- C3: the assembled feature vector reads features in the metadata-declared
order only; permuting the InputVector's internal storage order (its keys
being distinct, as in a dict) leaves `features_list` unchanged. -/
theorem features_list_perm_invariant (inputs inputs' : InputVector)
    (feature_cols : List String)
    (hnd : (inputs.map Prod.fst).Nodup) (hp : List.Perm inputs inputs') :
    features_list inputs' feature_cols = features_list inputs feature_cols := by
  unfold features_list getDefault
  refine List.map_congr_left (fun feat _ => ?_)
  rw [lookup_eq_of_perm hp feat hnd]

/-- Witness for C3 at a concrete permuted pair of InputVectors. -/
theorem features_list_perm_invariant_witness :
    (([("age", (59:ℚ)), ("prio", 3)] : InputVector).map Prod.fst).Nodup ∧
    List.Perm ([("age", (59:ℚ)), ("prio", 3)] : InputVector)
      [("prio", 3), ("age", 59)] ∧
    features_list [("prio", 3), ("age", 59)] ["age", "prio"] =
      features_list [("age", 59), ("prio", 3)] ["age", "prio"] :=
  ⟨by decide, by decide,
    features_list_perm_invariant [("age", 59), ("prio", 3)]
      [("prio", 3), ("age", 59)] ["age", "prio"] (by decide) (by decide)⟩

/-- C4: when the InputVector lacks a feature named in `feature_cols`, the
assembled vector holds 0 at that position and the evaluation proceeds
normally: it returns the same RiskResult as if the feature were present
with value 0. -/
theorem missing_feature_defaults_zero (scaler : List ℚ → List ℚ)
    (model : List ℚ → ℚ) (inputs : InputVector) (feature_cols : List String)
    (i : ℕ) (hi : i < feature_cols.length)
    (hmiss : List.lookup (feature_cols.get ⟨i, hi⟩) inputs = none) :
    (features_list inputs feature_cols).get
        ⟨i, by simpa [features_list] using hi⟩ = 0 ∧
    evaluate scaler model inputs feature_cols =
      evaluate scaler model ((feature_cols.get ⟨i, hi⟩, 0) :: inputs)
        feature_cols := by
  have hmiss' : List.lookup feature_cols[i] inputs = none := hmiss
  have hfl : features_list inputs feature_cols =
      features_list ((feature_cols.get ⟨i, hi⟩, 0) :: inputs) feature_cols := by
    unfold features_list getDefault
    refine List.map_congr_left (fun feat _ => ?_)
    by_cases h : feat = feature_cols.get ⟨i, hi⟩
    · subst h
      simp [List.lookup, hmiss']
    · have h' : (feat == feature_cols[i]) = false := by
        simp only [beq_eq_false_iff_ne]
        exact h
      simp [List.lookup, h']
  constructor
  · simp [features_list, getDefault, hmiss']
  · unfold evaluate
    rw [hfl]

/-- Witness for C4: an empty InputVector evaluated over one feature column. -/
theorem missing_feature_defaults_zero_witness :
    List.lookup "age" ([] : InputVector) = none ∧
    (features_list ([] : InputVector) ["age"]).get ⟨0, by decide⟩ = 0 :=
  ⟨rfl, (missing_feature_defaults_zero (fun l => l) (fun _ => 0)
    ([] : InputVector) ["age"] 0 (by decide) rfl).1⟩

/-- C6: the evaluator is deterministic: two runs over identical InputVectors
with the same (pure) scaler and model agree in score, tier and premium. -/
theorem evaluate_deterministic (scaler : List ℚ → List ℚ)
    (model : List ℚ → ℚ) (inputs₁ inputs₂ : InputVector)
    (feature_cols : List String) (h : inputs₁ = inputs₂) :
    (evaluate scaler model inputs₁ feature_cols).score =
      (evaluate scaler model inputs₂ feature_cols).score ∧
    (evaluate scaler model inputs₁ feature_cols).tier =
      (evaluate scaler model inputs₂ feature_cols).tier ∧
    (evaluate scaler model inputs₁ feature_cols).premium =
      (evaluate scaler model inputs₂ feature_cols).premium := by
  subst h
  exact ⟨rfl, rfl, rfl⟩

/-- Witness for C6 at a concrete InputVector, identity scaler and constant
model. -/
theorem evaluate_deterministic_witness :
    (evaluate (fun l => l) (fun _ => 0) [("age", 59)] ["age"]).score =
      (evaluate (fun l => l) (fun _ => 0) [("age", 59)] ["age"]).score ∧
    (evaluate (fun l => l) (fun _ => 0) [("age", 59)] ["age"]).tier =
      (evaluate (fun l => l) (fun _ => 0) [("age", 59)] ["age"]).tier ∧
    (evaluate (fun l => l) (fun _ => 0) [("age", 59)] ["age"]).premium =
      (evaluate (fun l => l) (fun _ => 0) [("age", 59)] ["age"]).premium :=
  evaluate_deterministic (fun l => l) (fun _ => 0) [("age", 59)]
    [("age", 59)] ["age"] rfl

/-- C5: if any one of the four artifacts fails to load, the whole load
fails, the page is the single error state, and no input form (nor any
further interactive UI) is rendered: no subset of artifacts is usable. -/
theorem load_failure_no_form (m : Option Model) (s : Option Scaler)
    (d : Option Metadata) (r : Option Metrics)
    (h : m = none ∨ s = none ∨ d = none ∨ r = none) :
    load_models m s d r = none ∧
    models_loaded (load_models m s d r) = false ∧
    renderApp (load_models m s d r) = Page.errorPage ∧
    (renderApp (load_models m s d r)).hasForm = false := by
  have hl : load_models m s d r = none := by
    cases m <;> cases s <;> cases d <;> cases r <;> simp_all [load_models]
  rw [hl]
  exact ⟨rfl, rfl, rfl, rfl⟩

/-- Witness for C5 with the model artifact missing. -/
theorem load_failure_no_form_witness :
    load_models none (some (fun l => l)) (some ⟨["age"]⟩)
      (some ⟨0, 0, 9, 432⟩) = none ∧
    models_loaded (load_models none (some (fun l => l)) (some ⟨["age"]⟩)
      (some ⟨0, 0, 9, 432⟩)) = false ∧
    renderApp (load_models none (some (fun l => l)) (some ⟨["age"]⟩)
      (some ⟨0, 0, 9, 432⟩)) = Page.errorPage ∧
    (renderApp (load_models none (some (fun l => l)) (some ⟨["age"]⟩)
      (some ⟨0, 0, 9, 432⟩))).hasForm = false :=
  load_failure_no_form none (some (fun l => l)) (some ⟨["age"]⟩)
    (some ⟨0, 0, 9, 432⟩) (Or.inl rfl)

/-- C7: a feature whose declared max is 1 renders as a two-valued choice
over [0, 1] with default index 0; any other feature renders as a bounded
number input over its declared range whose default is the integer midpoint
`min + (max - min) / 2` and whose step is 1 for age and prio and 0.1 for
every other feature. -/
theorem renderControl_cases (feature : String) :
    (((feature_ranges feature).getD (0, 100)).2 = 1 →
      ∃ lab desc, renderControl feature =
        Control.selectbox lab [0, 1] 0 desc) ∧
    (((feature_ranges feature).getD (0, 100)).2 ≠ 1 →
      ∃ lab desc, renderControl feature =
        Control.numberInput lab
          (((feature_ranges feature).getD (0, 100)).1 : ℚ)
          (((feature_ranges feature).getD (0, 100)).2 : ℚ)
          ((((feature_ranges feature).getD (0, 100)).1 +
            (((feature_ranges feature).getD (0, 100)).2 -
              ((feature_ranges feature).getD (0, 100)).1) / 2 : ℕ) : ℚ)
          (if feature ∈ ["age", "prio"] then 1 else 1/10) desc) := by
  constructor
  · intro h
    simp [renderControl, h]
  · intro h
    simp [renderControl, h]

/-- Witness for C7: "fin" is binary, "age" is continuous with midpoint
default 59 and step 1. -/
theorem renderControl_cases_witness :
    (∃ lab desc, renderControl "fin" =
      Control.selectbox lab [0, 1] 0 desc) ∧
    (∃ lab desc, renderControl "age" =
      Control.numberInput lab ((18 : ℕ) : ℚ) ((100 : ℕ) : ℚ)
        ((59 : ℕ) : ℚ) 1 desc) :=
  ⟨(renderControl_cases "fin").1 (by decide),
   (renderControl_cases "age").2 (by decide)⟩

/-- C8: any value a rendered control can hold lies within the feature's
declared [min, max] range (with the (0, 100) fallback): the selectbox only
offers 0 and 1 and the number input is clamped, so an out-of-range
InputVector entry is unreachable. -/
theorem input_values_in_declared_range (feature : String) (v : ℚ)
    (h : (renderControl feature).reachable v) :
    ((((feature_ranges feature).getD (0, 100)).1 : ℕ) : ℚ) ≤ v ∧
    v ≤ ((((feature_ranges feature).getD (0, 100)).2 : ℕ) : ℚ) := by
  unfold renderControl at h
  unfold feature_ranges at h ⊢
  split_ifs at h ⊢ <;>
    simp_all [Control.reachable] <;>
    rcases h with h | h <;> simp [h]

/-- Witness for C8: the age control holds 59, inside [18, 100]. -/
theorem input_values_in_declared_range_witness :
    (renderControl "age").reachable 59 ∧
    (((((feature_ranges "age").getD (0, 100)).1 : ℕ) : ℚ) ≤ 59 ∧
      (59 : ℚ) ≤ ((((feature_ranges "age").getD (0, 100)).2 : ℕ) : ℚ)) :=
  have h : (renderControl "age").reachable 59 := by decide
  ⟨h, input_values_in_declared_range "age" 59 h⟩

/-- C9: the form has exactly one control per feature, and the control at
index i is the one for the i-th feature, placed in column i % 3
(round-robin over the 3 fixed columns). -/
theorem renderForm_layout (feature_cols : List String) :
    (renderForm feature_cols).length = feature_cols.length ∧
    ∀ i (hi : i < feature_cols.length),
      (renderForm feature_cols).get ⟨i, by simpa [renderForm] using hi⟩ =
        (i % 3, renderControl (feature_cols.get ⟨i, hi⟩)) := by
  constructor
  · simp [renderForm]
  · intro i hi
    simp [renderForm, n_cols, List.get_eq_getElem]

/-- Witness for C9: four features, the fourth control wraps to column 0. -/
theorem renderForm_layout_witness :
    (renderForm ["fin", "age", "race", "wexp"]).length = 4 ∧
    (renderForm ["fin", "age", "race", "wexp"]).get ⟨3, by decide⟩ =
      (0, renderControl "wexp") :=
  ⟨(renderForm_layout ["fin", "age", "race", "wexp"]).1,
    (renderForm_layout ["fin", "age", "race", "wexp"]).2 3 (by decide)⟩

/-- C10 counterexample: "week" is not in the static range table (its range
falls back to (0, 100)), yet its label comes from the label table, not
from the title-cased fallback, so the claim's label clause fails. -/
theorem week_label_not_fallback :
    feature_ranges "week" = none ∧
    (renderControl "week").label ≠ pyTitle (replaceChar "week" '_' ' ') := by
  constructor
  · rfl
  · decide

/-- C10 (amended): a feature absent from the static range table falls back
to the range (0, 100) and renders as a continuous bounded number input
with default 50 and step 0.1; its label is the title-cased feature name
only when the feature is also absent from the label table (otherwise the
table label), and its help text is the generic string only when the
feature is absent from the description table. -/
theorem renderControl_fallback (feature : String)
    (h : feature_ranges feature = none) :
    renderControl feature =
      Control.numberInput
        ((feature_labels feature).getD
          (pyTitle (replaceChar feature '_' ' ')))
        0 100 50 (1/10)
        ((feature_descriptions feature).getD ("Valeur pour " ++ feature)) := by
  have hage : feature ≠ "age" := by
    rintro rfl
    simp [feature_ranges] at h
  have hprio : feature ≠ "prio" := by
    rintro rfl
    simp [feature_ranges] at h
  unfold renderControl
  rw [h]
  norm_num [hage, hprio]

/-- Witness for amended C10 at feature "week": range falls back to
(0, 100) but the label still comes from the label table. -/
theorem renderControl_fallback_witness :
    feature_ranges "week" = none ∧
    renderControl "week" =
      Control.numberInput "📅 Semaines depuis la Libération" 0 100 50 (1/10)
        "Valeur pour week" :=
  ⟨rfl, renderControl_fallback "week" rfl⟩

end SurvivalApp
